import Mathlib

/-!
Verification of the dataset-normalization core and the templated
explanation generator of the Thirukural backend
(`src/api/main.py` and `src/api/ai_service.py`), as a shallow embedding.

JSON scalar values are modelled by `Value`; Python `None` is `Value.null`,
and `Value.other` stands for any other JSON value (floats, arrays, nested
objects), on which the `isinstance(_, str)` / `isinstance(_, int)` tests of
the source are false, exactly as for those values.  Python's `str.strip()`
is modelled by `pyStripStr` (dropping ASCII whitespace from both ends),
`str.isdigit()` by an ASCII-digit test, and `int(float(s))`
by an exact-arithmetic parser of decimal floating literals truncating
toward zero (`pyFloatTruncInt`).
-/

namespace Thirukural

/-- A JSON scalar value as handled by the normalizer.  `bool` is kept
separate because Python treats `bool` as a subclass of `int`
(`isinstance(True, int)` is true), which `isInt` reproduces. -/
inductive Value where
  | null
  | bool (b : Bool)
  | int (n : Int)
  | str (s : String)
  | other
deriving Repr, DecidableEq

/-- A raw JSON object: an association list of fields (Python `dict`,
unique keys; lookup takes the first binding). -/
abbrev RawObj := List (String × Value)

/-- A top-level element of the parsed dataset array: either an object or
some non-mapping value (skipped by the loader loop). -/
inductive Item where
  | obj (o : RawObj)
  | nonObj
deriving Repr, DecidableEq

/-- `obj.get(key)`: first binding of `key`, `none` when absent. -/
def olookup : RawObj → String → Option Value
  | [], _ => none
  | (k, v) :: rest, key => if k = key then some v else olookup rest key

/-- The whitespace characters stripped by Python `str.strip()`
(ASCII subset). -/
def pySpace (c : Char) : Bool :=
  c = ' ' || c = '\t' || c = '\n' || c = '\r' || c = '\x0b' || c = '\x0c'

/-- Python `s.strip()` with no argument: remove whitespace from both
ends. -/
def pyStripStr (s : String) : String :=
  String.mk (((s.data.dropWhile pySpace).reverse.dropWhile pySpace).reverse)

/-- Python `isinstance(v, int)`; true on `bool` as in Python. -/
def isInt : Value → Bool
  | .int _ => true
  | .bool _ => true
  | _ => false

/-- Python `s.isdigit()` restricted to ASCII digits. -/
def pyIsDigit (s : String) : Bool := !s.isEmpty && s.toList.all Char.isDigit

/-- Value of a string of decimal digits. -/
def digitsToNat (cs : List Char) : Nat := cs.foldl (fun a c => 10 * a + (c.toNat - 48)) 0

/-- Python `int(s)` on a digit string. -/
def pyIntOfDigits (s : String) : Int := Int.ofNat (digitsToNat s.toList)

/-- Models Python `int(float(s))` with exact arithmetic: strip surrounding
whitespace, parse an optional sign, a decimal mantissa (digits, optional
point) and an optional exponent, and truncate the exact value toward zero.
`none` models the `except Exception` branch of `_get_number` (this covers
unparsable strings, and also `inf`/`nan`, where Python's `int()` raises). -/
def pyFloatTruncInt (s : String) : Option Int :=
  let cs0 := (pyStripStr s).toList
  let (sign, cs1) : Int × List Char :=
    match cs0 with
    | '+' :: rest => (1, rest)
    | '-' :: rest => (-1, rest)
    | _ => (1, cs0)
  let ip := cs1.takeWhile Char.isDigit
  let cs2 := cs1.dropWhile Char.isDigit
  let (fp, cs3) : List Char × List Char :=
    match cs2 with
    | '.' :: rest => (rest.takeWhile Char.isDigit, rest.dropWhile Char.isDigit)
    | _ => ([], cs2)
  if ip.isEmpty && fp.isEmpty then none
  else
    let (expOk, expVal, cs4) : Bool × Int × List Char :=
      match cs3 with
      | 'e' :: rest | 'E' :: rest =>
        let (es, rest2) : Int × List Char :=
          match rest with
          | '+' :: r => (1, r)
          | '-' :: r => (-1, r)
          | _ => (1, rest)
        let ed := rest2.takeWhile Char.isDigit
        (!ed.isEmpty, es * Int.ofNat (digitsToNat ed), rest2.dropWhile Char.isDigit)
      | _ => (true, 0, cs3)
    if !expOk || !cs4.isEmpty then none
    else
      let mant : Nat := digitsToNat (ip ++ fp)
      let scale : Int := expVal - Int.ofNat fp.length
      let mag : Nat :=
        if 0 ≤ scale then mant * 10 ^ scale.toNat else mant / 10 ^ scale.natAbs
      some (sign * Int.ofNat mag)

/-- The string-coercion step of `_get_number`: a digit string parses as an
integer, any other string goes through `int(float(s))`, failure gives
Python `None`; non-strings pass through unchanged. -/
def coerceNum : Value → Value
  | .str s =>
    if pyIsDigit s then .int (pyIntOfDigits s)
    else
      match pyFloatTruncInt s with
      | some n => .int n
      | none => .null
  | v => v

/-- `_get_number` of `main.py`: `obj.get("Number", obj.get("number"))`
followed by the numeric-string coercion.  Note the legacy `number` field
is the `get` default, consulted only when the key `Number` is absent. -/
def getNumber (o : RawObj) : Value :=
  coerceNum
    (match olookup o "Number" with
     | some v => v
     | none => (olookup o "number").getD .null)

/-- `_get_kural` of `main.py`: compose `Line1`/`Line2` (each trimmed,
joined by a newline) when both are strings and the composition trims to
non-empty; otherwise fall back to a `kural` string with non-empty trim. -/
def getKural (o : RawObj) : Option String :=
  let viaLines : Option String :=
    match olookup o "Line1", olookup o "Line2" with
    | some (.str l1), some (.str l2) =>
      let composed := pyStripStr l1 ++ "\n" ++ pyStripStr l2
      if pyStripStr composed ≠ "" then some composed else none
    | _, _ => none
  match viaLines with
  | some s => some s
  | none =>
    match olookup o "kural" with
    | some (.str k) => if pyStripStr k ≠ "" then some k else none
    | _ => none

/-- The scan loop of `_get_translation`: first key whose value is a string
with non-empty trimmed content wins, trimmed. -/
def firstStrField (o : RawObj) : List String → Option String
  | [] => none
  | key :: keys =>
    match olookup o key with
    | some (.str s) => if pyStripStr s ≠ "" then some (pyStripStr s) else firstStrField o keys
    | _ => firstStrField o keys

/-- `_get_translation` of `main.py`: priority scan over
`Translation`, `couplet`, `explanation`, `translation`. -/
def getTranslation (o : RawObj) : Option String :=
  firstStrField o ["Translation", "couplet", "explanation", "translation"]

/-- Optional passthrough for `section`/`chapter`: the raw value only if it
is a string, else `None`. -/
def strField (o : RawObj) (key : String) : Option String :=
  match olookup o key with
  | some (.str s) => some s
  | _ => none

/-- One normalized dataset entry (`sect` embeds the source's `section`
field; `section` is a Lean keyword). -/
structure NormRec where
  number : Value
  kural : String
  translation : String
  sect : Option String
  chapter : Option String
deriving Repr, DecidableEq

/-- One iteration of the loader loop of `_load_dataset`: skip non-mapping
elements, resolve the three required fields, validate
(`isinstance(number, int)`, `kural`/`translation` strings), attach the
optional metadata; `none` means the record is silently dropped. -/
def normRecord : Item → Option NormRec
  | .nonObj => none
  | .obj o =>
    match getKural o, getTranslation o with
    | some k, some t =>
      if isInt (getNumber o) then
        some ⟨getNumber o, k, t, strField o "section", strField o "chapter"⟩
      else none
    | _, _ => none

/-- The `for item in data` loop of `_load_dataset`, appending each
surviving record in source order. -/
def normLoop : List Item → List NormRec
  | [] => []
  | it :: rest =>
    match normRecord it with
    | some r => r :: normLoop rest
    | none => normLoop rest

/-- `_load_dataset` after JSON parsing, on a top-level list: normalize
every element, then fail fatally when nothing survived. -/
def loadNorm (data : List Item) : Except String (List NormRec) :=
  let normalized := normLoop data
  if normalized = [] then .error "No valid entries found in dataset after validation"
  else .ok normalized

/-- `AIConfig` of `ai_service.py` (environment-derived configuration,
passed explicitly here since the embedding is pure). -/
structure AIConfig where
  openai_api_key : Option String
  openai_model : String
  disable_external_calls : Bool
deriving Repr, DecidableEq

/-- The configuration `AIConfig.from_env` produces when no environment
variable is set: no API key, default model, external calls disabled
(`DISABLE_EXTERNAL_CALLS` defaults to `"true"`). -/
def defaultCfg : AIConfig := ⟨none, "gpt-5-nano", true⟩

/-- Python exceptions raised by `analyze_kural_for_user`: the explicit
`ValueError` of its validation guard, and the `AttributeError` raised by
`.strip()` on a non-string payload field. -/
inductive PyErr where
  | valueError (msg : String)
  | attributeError (msg : String)
deriving Repr, DecidableEq

/-- The dictionary returned by `analyze_kural_for_user`. -/
structure AnalyzeOut where
  number : Value
  kural : String
  translation : String
  explanation : String
  model : String
  external_call_used : Bool
deriving Repr, DecidableEq

/-- `v.strip()`: trims a string, raises `AttributeError` on any other
value (Python has no `strip` on non-strings). -/
def pyStrip : Value → Except PyErr String
  | .str s => .ok (pyStripStr s)
  | _ => .error (.attributeError "strip")

/-- The message of the `ValueError` raised by the validation guard of
`analyze_kural_for_user`. -/
def invalidMsg : String :=
  "Invalid payload. Expecting \x7bnumber:int, kural:str, translation:str\x7d."

/-- Python `f"{v}"` for the values `number` can hold after validation. -/
def pyStrOfNum : Value → String
  | .int n => toString n
  | .bool b => cond b "True" "False"
  | _ => ""

/-- The deterministic placeholder template of `analyze_kural_for_user`
(the `not use_external` branch). -/
def placeholderText (user_name : String) (number : Value) (translation : String) : String :=
  "Hi " ++ user_name ++ ", here is a concise reflection tailored for you.\n\n" ++
  "Kural #" ++ pyStrOfNum number ++ " highlights a timeless principle. In simple terms: " ++
  translation ++ "\n\n" ++
  "Why it matters for you: Focus on the core value behind these lines—" ++
  "consistency, humility, and purpose. Consider one small, practical step today " ++
  "that aligns with this insight.\n\n" ++
  "Summary: The Kural encourages living by foundational virtues. Even a small action " ++
  "done consistently will compound meaningfully over time."

/-- The simulated-call template of `analyze_kural_for_user`
(the `use_external` branch; no real network call is made). -/
def simulatedText (user_name : String) (model : String) (translation : String) : String :=
  "(Simulated) Explanation for " ++ user_name ++ " via " ++ model ++ ": " ++
  translation ++ " — Focus on practical application in daily habits."

/-- `analyze_kural_for_user` of `ai_service.py`: read `number`,
`kural.strip()`, `translation.strip()` from the payload (string `.strip()`
raising on non-strings, absent keys defaulting to `""`), validate, then
produce the deterministic placeholder or the simulated external response
depending on the configuration gate. -/
def analyze_kural_for_user (payload : RawObj) (user_name : String) (cfg : AIConfig) :
    Except PyErr AnalyzeOut :=
  let number := (olookup payload "number").getD .null
  match pyStrip ((olookup payload "kural").getD (.str "")) with
  | .error e => .error e
  | .ok kural =>
    match pyStrip ((olookup payload "translation").getD (.str "")) with
    | .error e => .error e
    | .ok translation =>
      if isInt number = false ∨ kural = "" ∨ translation = "" then
        .error (.valueError invalidMsg)
      else
        let use_external := cfg.openai_api_key.isSome && !cfg.disable_external_calls
        if use_external then
          .ok ⟨number, kural, translation,
               simulatedText user_name cfg.openai_model translation, cfg.openai_model, true⟩
        else
          .ok ⟨number, kural, translation,
               placeholderText user_name number translation, "placeholder", false⟩

/-- A payload text field (`kural` / `translation`) that
`analyze_kural_for_user` cannot accept: missing, of non-string type, or
empty after trimming. -/
def badText (p : RawObj) (key : String) : Prop :=
  match olookup p key with
  | some (.str s) => pyStripStr s = ""
  | some _ => True
  | none => True

/-! ### Supporting lemmas -/

theorem trim_nonempty {s : String} (h : pyStripStr s ≠ "") : s ≠ "" := by
  intro hs
  rw [hs] at h
  exact h (by decide)

theorem getKural_ne_empty (o : RawObj) (k : String) (h : getKural o = some k) : k ≠ "" := by
  simp only [getKural] at h
  split at h
  case _ s heq =>
    split at heq
    case _ l1 l2 _ =>
      split at heq
      case isTrue hg =>
        cases heq
        cases h
        exact trim_nonempty hg
      case isFalse => exact absurd heq (by simp)
    case _ => exact absurd heq (by simp)
  case _ =>
    split at h
    case _ k0 _ =>
      split at h
      case isTrue hg =>
        cases h
        exact trim_nonempty hg
      case isFalse => exact absurd h (by simp)
    case _ => exact absurd h (by simp)

theorem firstStrField_ne_empty (o : RawObj) (keys : List String) (t : String)
    (h : firstStrField o keys = some t) : t ≠ "" := by
  induction keys with
  | nil => exact absurd h (by simp [firstStrField])
  | cons key keys ih =>
    simp only [firstStrField] at h
    split at h
    case _ s _ =>
      split at h
      case isTrue hg =>
        cases h
        exact hg
      case isFalse => exact ih h
    case _ => exact ih h

theorem getTranslation_ne_empty (o : RawObj) (t : String) (h : getTranslation o = some t) :
    t ≠ "" :=
  firstStrField_ne_empty o _ t h

theorem normRecord_some (it : Item) (r : NormRec) (h : normRecord it = some r) :
    isInt r.number = true ∧ r.kural ≠ "" ∧ r.translation ≠ "" := by
  cases it with
  | nonObj => exact absurd h (by simp [normRecord])
  | obj o =>
    simp only [normRecord] at h
    split at h
    case _ k t hk ht =>
      split at h
      case isTrue hn =>
        cases h
        exact ⟨hn, getKural_ne_empty o k hk, getTranslation_ne_empty o t ht⟩
      case isFalse => exact absurd h (by simp)
    case _ => exact absurd h (by simp)

theorem mem_normLoop (data : List Item) (r : NormRec) (h : r ∈ normLoop data) :
    ∃ it, it ∈ data ∧ normRecord it = some r := by
  induction data with
  | nil => exact absurd h (by simp [normLoop])
  | cons it rest ih =>
    simp only [normLoop] at h
    rcases heq : normRecord it with _ | r0
    · rw [heq] at h
      obtain ⟨it0, hmem, hrec⟩ := ih h
      exact ⟨it0, List.mem_cons_of_mem _ hmem, hrec⟩
    · rw [heq] at h
      rcases List.mem_cons.mp h with hr | hr
      · exact ⟨it, List.mem_cons_self _ _, by rw [heq, hr]⟩
      · obtain ⟨it0, hmem, hrec⟩ := ih hr
        exact ⟨it0, List.mem_cons_of_mem _ hmem, hrec⟩

/-! ### Claim theorems -/

/-- C1: on any top-level list, `_load_dataset`'s normalization either
fails with the fatal zero-survivors error or returns a non-empty list of
canonical records; it never returns an empty collection. -/
theorem C1_nonempty_or_fatal (data : List Item) :
    loadNorm data = Except.error "No valid entries found in dataset after validation" ∨
    ∃ out, loadNorm data = Except.ok out ∧ out ≠ [] := by
  by_cases h : normLoop data = []
  · left
    simp [loadNorm, h]
  · right
    exact ⟨normLoop data, by simp [loadNorm, h], h⟩

/-- C2 counterexample: a valid legacy record whose `translation` carries
surrounding whitespace is not mapped identically — the stored translation
is trimmed (`" b "` becomes `"b"`), so normalization is not the identity
on the `translation` field. -/
theorem C2_counterexample :
    normRecord (Item.obj
        [("number", Value.int 1), ("kural", Value.str "a"), ("translation", Value.str " b ")]) =
      some ⟨Value.int 1, "a", "b", none, none⟩ ∧ (" b " : String) ≠ "b" :=
  ⟨rfl, by decide⟩

/-- C2 (amended): for every legacy-schema record (integer `number`, no
`Number`/`Line1` keys, `kural` a string with non-empty trimmed content,
`translation` a string with non-empty trimmed content and no competing
gloss keys), normalization keeps `number` and `kural` unchanged, stores
the **trimmed** `translation`, and copies `section`/`chapter` strings
through unchanged. -/
theorem C2_legacy_identity (o : RawObj) (n : Int) (k t sec ch : String)
    (hNum : olookup o "Number" = none)
    (hn : olookup o "number" = some (.int n))
    (hL1 : olookup o "Line1" = none)
    (hk : olookup o "kural" = some (.str k)) (hknz : pyStripStr k ≠ "")
    (hT : olookup o "Translation" = none)
    (hc : olookup o "couplet" = none)
    (he : olookup o "explanation" = none)
    (ht : olookup o "translation" = some (.str t)) (htnz : pyStripStr t ≠ "")
    (hs : olookup o "section" = some (.str sec))
    (hch : olookup o "chapter" = some (.str ch)) :
    normRecord (.obj o) = some ⟨.int n, k, pyStripStr t, some sec, some ch⟩ := by
  simp [normRecord, getKural, getTranslation, firstStrField, getNumber, coerceNum, strField,
        isInt, hNum, hn, hL1, hk, hknz, hT, hc, he, ht, htnz, hs, hch]

/-- C2 witness: the amended identity at a concrete legacy record. -/
theorem C2_legacy_identity_witness :
    normRecord (.obj [("number", Value.int 10), ("kural", Value.str "body"),
        ("translation", Value.str "gloss"), ("section", Value.str "S"),
        ("chapter", Value.str "C")]) =
      some ⟨.int 10, "body", pyStripStr "gloss", some "S", some "C"⟩ :=
  C2_legacy_identity _ 10 "body" "gloss" "S" "C" rfl rfl rfl rfl (by decide)
    rfl rfl rfl rfl (by decide) rfl rfl

/-- C3 counterexample: the loader accepts a record with `number = 0`, so
a successful load can contain a non-positive `number` — positivity is not
an invariant of the canonical collection. -/
theorem C3_counterexample :
    loadNorm [Item.obj [("number", Value.int 0), ("kural", Value.str "a"),
        ("translation", Value.str "b")]] =
      Except.ok [⟨Value.int 0, "a", "b", none, none⟩] :=
  rfl

/-- C3 (amended): every record of a successful load has an integer
`number` (in the Python sense, `isinstance(_, int)`; positivity is NOT
checked) and non-empty `kural` and `translation`, whatever the input
list was. -/
theorem C3_invariant (data : List Item) (out : List NormRec) (r : NormRec)
    (hload : loadNorm data = Except.ok out) (hr : r ∈ out) :
    isInt r.number = true ∧ r.kural ≠ "" ∧ r.translation ≠ "" := by
  have hout : out = normLoop data := by
    by_cases h : normLoop data = []
    · simp [loadNorm, h] at hload
    · simp [loadNorm, h] at hload
      exact hload.symm
  rw [hout] at hr
  obtain ⟨it, _, hrec⟩ := mem_normLoop data r hr
  exact normRecord_some it r hrec

/-- C3 witness: the amended invariant at a concrete one-record load. -/
theorem C3_invariant_witness :
    isInt (NormRec.mk (Value.int 1) "a" "b" none none).number = true ∧
    (NormRec.mk (Value.int 1) "a" "b" none none).kural ≠ "" ∧
    (NormRec.mk (Value.int 1) "a" "b" none none).translation ≠ "" :=
  C3_invariant [Item.obj [("number", Value.int 1), ("kural", Value.str "a"),
      ("translation", Value.str "b")]]
    [⟨Value.int 1, "a", "b", none, none⟩] _ rfl (by simp)

/-- C4: the gloss is resolved by scanning `Translation`, `couplet`,
`explanation`, `translation` in that order, taking the first string with
non-empty trimmed content, trimmed: a qualifying `Translation` always
wins; with `Translation` absent a qualifying `couplet` wins; and when the
scan yields nothing the record is dropped. -/
theorem C4_translation_priority :
    (∀ (o : RawObj) (s : String), olookup o "Translation" = some (.str s) →
        pyStripStr s ≠ "" → getTranslation o = some (pyStripStr s)) ∧
    (∀ (o : RawObj) (c : String), olookup o "Translation" = none →
        olookup o "couplet" = some (.str c) → pyStripStr c ≠ "" →
        getTranslation o = some (pyStripStr c)) ∧
    (∀ o : RawObj, getTranslation o = none → normRecord (.obj o) = none) := by
  refine ⟨?_, ?_, ?_⟩
  · intro o s h hnz
    simp [getTranslation, firstStrField, h, hnz]
  · intro o c hT hc hnz
    simp [getTranslation, firstStrField, hT, hc, hnz]
  · intro o h
    cases hk : getKural o <;> simp [normRecord, hk, h]

/-- C4 witness: the priority scan at concrete records (all three gloss
keys present; only `couplet`/`explanation`; no gloss key at all). -/
theorem C4_translation_priority_witness :
    getTranslation [("Translation", Value.str " T "), ("couplet", Value.str "c"),
        ("explanation", Value.str "e")] = some "T" ∧
    getTranslation [("couplet", Value.str " c "), ("explanation", Value.str "e")] = some "c" ∧
    normRecord (.obj [("number", Value.int 1), ("kural", Value.str "a")]) = none :=
  ⟨C4_translation_priority.1 _ " T " rfl (by decide),
   C4_translation_priority.2.1 _ " c " rfl rfl (by decide),
   C4_translation_priority.2.2 _ rfl⟩

/-- C5: when `Line1` and `Line2` are both strings, the couplet body is
`strip(Line1) ++ "\n" ++ strip(Line2)` provided that composition has
non-empty trimmed content; otherwise resolution falls back to a `kural`
string with non-empty trimmed content (stored untrimmed); a record with
no resolvable body is dropped — in particular one with `Line1` and
`Line2` both empty and no `kural`. -/
theorem C5_primary_text :
    (∀ (o : RawObj) (l1 l2 : String),
        olookup o "Line1" = some (.str l1) → olookup o "Line2" = some (.str l2) →
        pyStripStr (pyStripStr l1 ++ "\n" ++ pyStripStr l2) ≠ "" →
        getKural o = some (pyStripStr l1 ++ "\n" ++ pyStripStr l2)) ∧
    (∀ (o : RawObj) (l1 l2 k : String),
        olookup o "Line1" = some (.str l1) → olookup o "Line2" = some (.str l2) →
        pyStripStr (pyStripStr l1 ++ "\n" ++ pyStripStr l2) = "" →
        olookup o "kural" = some (.str k) → pyStripStr k ≠ "" →
        getKural o = some k) ∧
    (∀ o : RawObj, getKural o = none → normRecord (.obj o) = none) ∧
    normRecord (.obj [("Number", Value.int 1), ("Line1", Value.str ""),
        ("Line2", Value.str ""), ("Translation", Value.str "t")]) = none := by
  refine ⟨?_, ?_, ?_, rfl⟩
  · intro o l1 l2 h1 h2 hnz
    simp [getKural, h1, h2, hnz]
  · intro o l1 l2 k h1 h2 hz hk hknz
    simp [getKural, h1, h2, hz, hk, hknz]
  · intro o h
    cases ht : getTranslation o <;> simp [normRecord, h, ht]

/-- C5 witness: the body resolution at concrete records (two lines with
whitespace; empty lines falling back to `kural`). -/
theorem C5_primary_text_witness :
    getKural [("Line1", Value.str " a "), ("Line2", Value.str "b")] = some "a\nb" ∧
    getKural [("Line1", Value.str " "), ("Line2", Value.str ""), ("kural", Value.str "K")] =
      some "K" ∧
    normRecord (.obj [("number", Value.int 1), ("translation", Value.str "t")]) = none :=
  ⟨C5_primary_text.1 _ " a " "b" rfl rfl (by decide),
   C5_primary_text.2.1 _ " " "" "K" rfl rfl (by decide) rfl (by decide),
   C5_primary_text.2.2.1 _ rfl⟩

/-- C6: `number` coercion — a digit string parses directly to its
integer value (so `Number` given as `"2"` yields `2`); any other string
goes through float parse and truncation; on parse failure the resolved
value is Python `None` and the single record is dropped; a lone
unparsable record makes the whole load fail (zero survivors), while the
same record next to a valid one is merely skipped. -/
theorem C6_number_coercion :
    (∀ (o : RawObj) (s : String), olookup o "Number" = some (.str s) →
        pyIsDigit s = true → getNumber o = .int (pyIntOfDigits s)) ∧
    (∀ (o : RawObj) (s : String) (n : Int), olookup o "Number" = some (.str s) →
        pyIsDigit s = false → pyFloatTruncInt s = some n → getNumber o = .int n) ∧
    (∀ (o : RawObj) (s : String), olookup o "Number" = some (.str s) →
        pyIsDigit s = false → pyFloatTruncInt s = none →
        getNumber o = Value.null ∧ normRecord (.obj o) = none) ∧
    getNumber [("Number", Value.str "2")] = Value.int 2 ∧
    loadNorm [.obj [("Number", Value.str "not-number"), ("kural", Value.str "a"),
        ("translation", Value.str "b")]] =
      Except.error "No valid entries found in dataset after validation" ∧
    loadNorm [.obj [("Number", Value.str "not-number"), ("kural", Value.str "a"),
          ("translation", Value.str "b")],
        .obj [("number", Value.int 1), ("kural", Value.str "a"),
          ("translation", Value.str "b")]] =
      Except.ok [⟨Value.int 1, "a", "b", none, none⟩] := by
  refine ⟨?_, ?_, ?_, rfl, rfl, rfl⟩
  · intro o s h hd
    simp [getNumber, coerceNum, h, hd]
  · intro o s n h hd hf
    simp [getNumber, coerceNum, h, hd, hf]
  · intro o s h hd hf
    have hnum : getNumber o = Value.null := by simp [getNumber, coerceNum, h, hd, hf]
    refine ⟨hnum, ?_⟩
    cases hk : getKural o <;> cases ht : getTranslation o <;>
      simp [normRecord, hk, ht, hnum, isInt]

/-- C6 witness: the coercion branches at concrete strings (`"2"` digit
parse, `"3.7"` float truncation, `"not-number"` failure). -/
theorem C6_number_coercion_witness :
    getNumber [("Number", Value.str "2")] = .int (pyIntOfDigits "2") ∧
    getNumber [("Number", Value.str "3.7")] = .int 3 ∧
    getNumber [("Number", Value.str "not-number")] = Value.null ∧
    normRecord (.obj [("Number", Value.str "not-number")]) = none :=
  ⟨C6_number_coercion.1 [("Number", Value.str "2")] "2" rfl (by decide),
   C6_number_coercion.2.1 [("Number", Value.str "3.7")] "3.7" 3 rfl (by decide) (by decide),
   (C6_number_coercion.2.2.1 [("Number", Value.str "not-number")] "not-number"
     rfl (by decide) (by decide)).1,
   (C6_number_coercion.2.2.1 [("Number", Value.str "not-number")] "not-number"
     rfl (by decide) (by decide)).2⟩

/-- Any payload whose `kural` and `translation` fields strip to strings
`ks`/`ts` (absent keys default to `""`) and which fails the validation
guard is rejected with the descriptive `ValueError`. -/
theorem analyze_valueError (p : RawObj) (u : String) (cfg : AIConfig) (ks ts : String)
    (hk : pyStrip ((olookup p "kural").getD (.str "")) = Except.ok ks)
    (ht : pyStrip ((olookup p "translation").getD (.str "")) = Except.ok ts)
    (h : isInt ((olookup p "number").getD .null) = false ∨ ks = "" ∨ ts = "") :
    analyze_kural_for_user p u cfg = Except.error (.valueError invalidMsg) := by
  simp only [analyze_kural_for_user, hk, ht]
  rw [if_pos h]

/-- A `.strip()` failure on `kural`, or on `translation` after a
successful `kural` strip, propagates out of the generator. -/
theorem analyze_stripError (p : RawObj) (u : String) (cfg : AIConfig) (e : PyErr)
    (hcase : pyStrip ((olookup p "kural").getD (.str "")) = Except.error e ∨
      (∃ ks, pyStrip ((olookup p "kural").getD (.str "")) = Except.ok ks ∧
        pyStrip ((olookup p "translation").getD (.str "")) = Except.error e)) :
    analyze_kural_for_user p u cfg = Except.error e := by
  rcases hcase with hk | ⟨ks, hk, ht⟩
  · simp only [analyze_kural_for_user, hk]
  · simp only [analyze_kural_for_user, hk, ht]

/-- C7 counterexample: a payload whose `kural` is of non-string type is
rejected by the generator with an `AttributeError` raised by `.strip()`,
not with the descriptive `ValueError` of the validation guard — so the
claim that every malformed payload gets a validation error fails for the
wrong-type text fields. -/
theorem C7_counterexample :
    analyze_kural_for_user [("number", Value.int 1), ("kural", Value.int 2),
        ("translation", Value.str "y")] "Al Ayman" defaultCfg =
      Except.error (PyErr.attributeError "strip") ∧
    PyErr.attributeError "strip" ≠ PyErr.valueError invalidMsg :=
  ⟨rfl, by decide⟩

/-- C7 (amended): every payload with a non-integer `number` or a
missing / wrong-typed / empty-after-trim `kural` or `translation` is
rejected before any template work and produces no output value — with
the descriptive `ValueError` whenever the text fields resolve to strings
(in particular for `number = "1"`), and with an `AttributeError` from
`.strip()` when a text field has a non-string type. -/
theorem C7_validation :
    (∀ (p : RawObj) (u : String) (cfg : AIConfig),
        (isInt ((olookup p "number").getD .null) = false ∨
          badText p "kural" ∨ badText p "translation") →
        ∃ e, analyze_kural_for_user p u cfg = Except.error e) ∧
    (∀ (p : RawObj) (u : String) (cfg : AIConfig) (ks ts : String),
        olookup p "kural" = some (.str ks) →
        olookup p "translation" = some (.str ts) →
        (isInt ((olookup p "number").getD .null) = false ∨
          pyStripStr ks = "" ∨ pyStripStr ts = "") →
        analyze_kural_for_user p u cfg = Except.error (PyErr.valueError invalidMsg)) := by
  constructor
  · intro p u cfg h
    rcases hkk : olookup p "kural" with _ | vk
    · -- `kural` absent: it defaults to `""`, which fails validation
      -- (unless `translation.strip()` raises first, on a non-string)
      rcases htt : olookup p "translation" with _ | vt
      · exact ⟨.valueError invalidMsg,
          analyze_valueError p u cfg "" "" (by rw [hkk]; rfl) (by rw [htt]; rfl)
            (Or.inr (Or.inl rfl))⟩
      · cases vt with
        | str ts => exact ⟨.valueError invalidMsg,
            analyze_valueError p u cfg "" (pyStripStr ts) (by rw [hkk]; rfl) (by rw [htt]; rfl)
              (Or.inr (Or.inl rfl))⟩
        | null => exact ⟨.attributeError "strip",
            analyze_stripError p u cfg _ (Or.inr ⟨"", by rw [hkk]; rfl, by rw [htt]; rfl⟩)⟩
        | bool b => exact ⟨.attributeError "strip",
            analyze_stripError p u cfg _ (Or.inr ⟨"", by rw [hkk]; rfl, by rw [htt]; rfl⟩)⟩
        | int n => exact ⟨.attributeError "strip",
            analyze_stripError p u cfg _ (Or.inr ⟨"", by rw [hkk]; rfl, by rw [htt]; rfl⟩)⟩
        | other => exact ⟨.attributeError "strip",
            analyze_stripError p u cfg _ (Or.inr ⟨"", by rw [hkk]; rfl, by rw [htt]; rfl⟩)⟩
    · cases vk with
      | str ks =>
        rcases htt : olookup p "translation" with _ | vt
        · exact ⟨.valueError invalidMsg,
            analyze_valueError p u cfg (pyStripStr ks) "" (by rw [hkk]; rfl) (by rw [htt]; rfl)
              (Or.inr (Or.inr rfl))⟩
        · cases vt with
          | str ts =>
            refine ⟨.valueError invalidMsg,
              analyze_valueError p u cfg (pyStripStr ks) (pyStripStr ts)
                (by rw [hkk]; rfl) (by rw [htt]; rfl) ?_⟩
            simp only [badText, hkk, htt] at h
            exact h
          | null => exact ⟨.attributeError "strip",
              analyze_stripError p u cfg _ (Or.inr ⟨pyStripStr ks, by rw [hkk]; rfl, by rw [htt]; rfl⟩)⟩
          | bool b => exact ⟨.attributeError "strip",
              analyze_stripError p u cfg _ (Or.inr ⟨pyStripStr ks, by rw [hkk]; rfl, by rw [htt]; rfl⟩)⟩
          | int n => exact ⟨.attributeError "strip",
              analyze_stripError p u cfg _ (Or.inr ⟨pyStripStr ks, by rw [hkk]; rfl, by rw [htt]; rfl⟩)⟩
          | other => exact ⟨.attributeError "strip",
              analyze_stripError p u cfg _ (Or.inr ⟨pyStripStr ks, by rw [hkk]; rfl, by rw [htt]; rfl⟩)⟩
      | null => exact ⟨.attributeError "strip",
          analyze_stripError p u cfg _ (Or.inl (by rw [hkk]; rfl))⟩
      | bool b => exact ⟨.attributeError "strip",
          analyze_stripError p u cfg _ (Or.inl (by rw [hkk]; rfl))⟩
      | int n => exact ⟨.attributeError "strip",
          analyze_stripError p u cfg _ (Or.inl (by rw [hkk]; rfl))⟩
      | other => exact ⟨.attributeError "strip",
          analyze_stripError p u cfg _ (Or.inl (by rw [hkk]; rfl))⟩
  · intro p u cfg ks ts hk ht h
    exact analyze_valueError p u cfg (pyStripStr ks) (pyStripStr ts)
      (by rw [hk]; rfl) (by rw [ht]; rfl) h

/-- C7 witness: the rejection at two concrete payloads — `number` given
as the string `"1"` (descriptive `ValueError`), and a `kural` key left
out entirely (rejected with some error, via the existence part). -/
theorem C7_validation_witness :
    analyze_kural_for_user [("number", Value.str "1"), ("kural", Value.str "x"),
        ("translation", Value.str "y")] "Al Ayman" defaultCfg =
      Except.error (PyErr.valueError invalidMsg) ∧
    ∃ e, analyze_kural_for_user [("number", Value.int 1),
        ("translation", Value.str "y")] "Al Ayman" defaultCfg = Except.error e :=
  ⟨C7_validation.2 [("number", Value.str "1"), ("kural", Value.str "x"),
      ("translation", Value.str "y")] "Al Ayman" defaultCfg "x" "y" rfl rfl
      (Or.inl (by decide)),
   C7_validation.1 [("number", Value.int 1), ("translation", Value.str "y")]
      "Al Ayman" defaultCfg (Or.inr (Or.inl trivial))⟩

/-- C8: the generator is deterministic — its result depends only on the
`number`, `kural` and `translation` payload fields, the audience label
and the configuration (no random state); and in a configuration with
external calls disabled every success is the placeholder template with
`external_call_used = false`. -/
theorem C8_deterministic :
    (∀ (p1 p2 : RawObj) (u : String) (cfg : AIConfig),
        cfg.disable_external_calls = true →
        olookup p1 "number" = olookup p2 "number" →
        olookup p1 "kural" = olookup p2 "kural" →
        olookup p1 "translation" = olookup p2 "translation" →
        analyze_kural_for_user p1 u cfg = analyze_kural_for_user p2 u cfg) ∧
    (∀ (p : RawObj) (u : String) (cfg : AIConfig) (out : AnalyzeOut),
        cfg.disable_external_calls = true →
        analyze_kural_for_user p u cfg = Except.ok out →
        out.external_call_used = false ∧ out.model = "placeholder" ∧
        out.explanation = placeholderText u out.number out.translation) := by
  constructor
  · intro p1 p2 u cfg _ hn hk ht
    simp only [analyze_kural_for_user, hn, hk, ht]
  · intro p u cfg out hd h
    simp only [analyze_kural_for_user] at h
    split at h
    · exact absurd h (by simp)
    split at h
    · exact absurd h (by simp)
    split at h
    · exact absurd h (by simp)
    rw [if_neg (by simp [hd])] at h
    cases h
    exact ⟨rfl, rfl, rfl⟩

/-- C8 witness: two payloads agreeing on the three consulted fields (one
carrying an extra, ignored field) produce identical outputs under the
default configuration, and a concrete success uses the placeholder. -/
theorem C8_deterministic_witness :
    analyze_kural_for_user [("number", Value.int 1), ("kural", Value.str "x"),
        ("translation", Value.str "y")] "Al Ayman" defaultCfg =
      analyze_kural_for_user [("number", Value.int 1), ("kural", Value.str "x"),
        ("translation", Value.str "y"), ("extra", Value.str "ignored")] "Al Ayman" defaultCfg ∧
    ((AnalyzeOut.mk (Value.int 1) "x" "y"
        (placeholderText "Al Ayman" (Value.int 1) "y") "placeholder"
        false).external_call_used = false ∧
      (AnalyzeOut.mk (Value.int 1) "x" "y"
        (placeholderText "Al Ayman" (Value.int 1) "y") "placeholder"
        false).model = "placeholder" ∧
      (AnalyzeOut.mk (Value.int 1) "x" "y"
        (placeholderText "Al Ayman" (Value.int 1) "y") "placeholder"
        false).explanation = placeholderText "Al Ayman" (Value.int 1) "y") :=
  ⟨C8_deterministic.1 [("number", Value.int 1), ("kural", Value.str "x"),
      ("translation", Value.str "y")]
    [("number", Value.int 1), ("kural", Value.str "x"),
      ("translation", Value.str "y"), ("extra", Value.str "ignored")]
    "Al Ayman" defaultCfg rfl rfl rfl rfl,
   C8_deterministic.2 [("number", Value.int 1), ("kural", Value.str "x"),
      ("translation", Value.str "y")] "Al Ayman" defaultCfg
    (AnalyzeOut.mk (Value.int 1) "x" "y"
      (placeholderText "Al Ayman" (Value.int 1) "y") "placeholder" false) rfl rfl⟩

/-- C9: the loader loop preserves source order — it distributes over
list append and acts pointwise on singletons (hence the surviving
records appear exactly in the relative order of their raw records), and
a concrete three-record legacy document loads to its three canonical
records in source order while the empty array fails fatally. -/
theorem C9_source_order :
    (∀ xs ys : List Item, normLoop (xs ++ ys) = normLoop xs ++ normLoop ys) ∧
    (∀ it : Item, normLoop [it] = (normRecord it).toList) ∧
    loadNorm [.obj [("number", Value.int 1), ("kural", Value.str "k1"),
          ("translation", Value.str "t1")],
        .obj [("number", Value.int 2), ("kural", Value.str "k2"),
          ("translation", Value.str "t2")],
        .obj [("number", Value.int 3), ("kural", Value.str "k3"),
          ("translation", Value.str "t3")]] =
      Except.ok [⟨Value.int 1, "k1", "t1", none, none⟩,
        ⟨Value.int 2, "k2", "t2", none, none⟩,
        ⟨Value.int 3, "k3", "t3", none, none⟩] ∧
    loadNorm [] = Except.error "No valid entries found in dataset after validation" := by
  refine ⟨?_, ?_, rfl, rfl⟩
  · intro xs ys
    induction xs with
    | nil => rfl
    | cons it rest ih =>
      simp only [List.cons_append, normLoop]
      cases normRecord it <;> simp [ih]
  · intro it
    cases h : normRecord it <;> simp [normLoop, h]

/-- C10: the legacy `number` field is only the `dict.get` default for the
`Number` key: a record carrying `Number` with JSON `null` next to a valid
integer `number` resolves to Python `None` and is dropped, not rescued
through `number`. -/
theorem C10_number_shadowing (o : RawObj) (n : Int)
    (hN : olookup o "Number" = some Value.null)
    (hn : olookup o "number" = some (.int n)) :
    getNumber o = Value.null ∧ normRecord (.obj o) = none := by
  have h1 : getNumber o = Value.null := by simp [getNumber, coerceNum, hN]
  refine ⟨h1, ?_⟩
  cases hk : getKural o <;> cases ht : getTranslation o <;>
    simp [normRecord, hk, ht, h1, isInt]

/-- C10 witness: the shadowing at a concrete record that would otherwise
be fully valid through its legacy fields. -/
theorem C10_number_shadowing_witness :
    getNumber [("Number", Value.null), ("number", Value.int 7),
        ("kural", Value.str "a"), ("translation", Value.str "b")] = Value.null ∧
    normRecord (.obj [("Number", Value.null), ("number", Value.int 7),
        ("kural", Value.str "a"), ("translation", Value.str "b")]) = none :=
  C10_number_shadowing [("Number", Value.null), ("number", Value.int 7),
    ("kural", Value.str "a"), ("translation", Value.str "b")] 7 rfl rfl

end Thirukural
